import Mathlib

/-!
Shallow embedding of the PCMonitoring pc-agent local store and sync engine.

The embedding follows the Python sources:
- database.py        (class Database: the sqlite-backed LocalStore)
- gui_app.py         (class LocalDatabase, class FirebaseSync: the GUI agent variant)
- services/sync_service.py (class SyncService: the firebase-admin sync variant)

Modelling conventions:
- sqlite tables become Lean lists of structure rows in insertion order; AUTOINCREMENT
  primary keys become an explicit next_id counter.
- ISO-8601 timestamp strings are modelled as integer seconds; datetime subtraction
  becomes integer subtraction.
- Remote (Firebase) collections are association lists from path key to document.
- A remote or sqlite call that can fail is modelled by threading its success result in
  as a Bool (or a Nat-indexed oracle of Bools); Python exceptions that the source lets
  escape are modelled with Except.
-/

/-- Row of the session_logs table (database.py lines 47-58, gui_app.py lines 126-137). -/
structure SessionRow where
  id : Nat
  computer_id : String
  username : String
  session_start : Int
  session_end : Option Int
  duration_minutes : Option Int
  synced : Nat
deriving DecidableEq

/-- The session_logs table together with its AUTOINCREMENT counter. -/
structure SessionStore where
  session_logs : List SessionRow
  next_id : Nat
deriving DecidableEq

/-- Row of the application_logs table (database.py lines 61-74). -/
structure AppRow where
  id : Nat
  computer_id : String
  username : String
  application_name : String
  window_title : String
  start_time : Int
  end_time : Option Int
  duration_seconds : Option Int
  synced : Nat
deriving DecidableEq

/-- Row of the computer table (database.py lines 36-44). -/
structure ComputerRow where
  computer_id : String
  computer_name : String
  registered_at : Int
  synced : Nat
deriving DecidableEq

/-- Row of the error_logs table (database.py lines 92-100). -/
structure ErrorRow where
  error_type : String
  error_message : String
  stack_trace : Option String
deriving DecidableEq

/-- Python round() applied to the rational a / b with b > 0: round half to even.
Lean integer division and remainder are euclidean, which for a positive divisor agree
with Python floor division and modulo. -/
def pyRound (a b : Int) : Int :=
  if 2 * (a % b) < b then a / b
  else if b < 2 * (a % b) then a / b + 1
  else if (a / b) % 2 = 0 then a / b else a / b + 1

/-- Python int() applied to the rational a / b: truncation toward zero. -/
def pyTrunc (a b : Int) : Int :=
  Int.tdiv a b

namespace Database

/-- database.py get_computer_id (lines 116-121): the computer table is read with LIMIT 1,
so the first row decides. -/
def get_computer_id (computers : List ComputerRow) : Option String :=
  computers.head?.map (fun r => r.computer_id)

/-- database.py register_computer (lines 123-140): return the existing id when one exists,
otherwise insert a row holding a freshly generated UUID (passed in as fresh_uuid). -/
def register_computer (computers : List ComputerRow) (fresh_uuid computer_name : String)
    (now : Int) : String × List ComputerRow :=
  match get_computer_id computers with
  | some existing_id => (existing_id, computers)
  | none =>
    (fresh_uuid,
     computers ++ [{ computer_id := fresh_uuid, computer_name := computer_name,
                     registered_at := now, synced := 0 }])

/-- database.py start_session (lines 157-165): insert a new open session row.
The body performs no stale-session closing. -/
def start_session (s : SessionStore) (computer_id username : String) (now : Int) :
    Nat × SessionStore :=
  (s.next_id,
   { session_logs := s.session_logs ++
       [{ id := s.next_id, computer_id := computer_id, username := username,
          session_start := now, session_end := none, duration_minutes := none, synced := 0 }],
     next_id := s.next_id + 1 })

/-- database.py end_session (lines 167-187): fetch the row by id (no-op when absent), then
update every row with that id with session_end = now and
duration_minutes = max(1, round((now - session_start) / 60)). The row's closed or open
state is not inspected. -/
def end_session (s : SessionStore) (session_id : Nat) (now : Int) : SessionStore :=
  match s.session_logs.find? (fun r => r.id == session_id) with
  | none => s
  | some row =>
    let duration := max 1 (pyRound (now - row.session_start) 60)
    { s with session_logs := s.session_logs.map (fun r =>
        if r.id == session_id then
          { r with session_end := some now, duration_minutes := some duration }
        else r) }

/-- database.py get_unsynced_sessions (lines 189-197):
SELECT .. WHERE synced = 0 AND session_end IS NOT NULL LIMIT limit. -/
def get_unsynced_sessions (s : SessionStore) (limit : Nat) : List SessionRow :=
  (s.session_logs.filter (fun r => r.synced == 0 && r.session_end.isSome)).take limit

/-- database.py get_active_sessions (lines 199-206): SELECT .. WHERE session_end IS NULL. -/
def get_active_sessions (s : SessionStore) : List SessionRow :=
  s.session_logs.filter (fun r => r.session_end.isNone)

/-- database.py mark_sessions_synced (lines 208-215): UPDATE .. SET synced = 1 WHERE id IN ids. -/
def mark_sessions_synced (s : SessionStore) (ids : List Nat) : SessionStore :=
  { s with session_logs := s.session_logs.map (fun r =>
      if ids.contains r.id then { r with synced := 1 } else r) }

/-- database.py get_unsynced_applications (lines 241-249):
SELECT .. WHERE synced = 0 AND end_time IS NOT NULL LIMIT limit. -/
def get_unsynced_applications (apps : List AppRow) (limit : Nat) : List AppRow :=
  (apps.filter (fun a => a.synced == 0 && a.end_time.isSome)).take limit

/-- database.py log_error (lines 294-301): INSERT INTO error_logs. The body contains no
exception handler, so a failing sqlite write propagates to the caller; the write outcome
is threaded in as write_ok and its failure surfaces as Except.error. -/
def log_error (error_logs : List ErrorRow) (write_ok : Bool)
    (error_type error_message : String) (stack_trace : Option String) :
    Except String (List ErrorRow) :=
  if write_ok then
    Except.ok (error_logs ++
      [{ error_type := error_type, error_message := error_message, stack_trace := stack_trace }])
  else
    Except.error "sqlite3 write failure propagates"

end Database

namespace LocalDatabase

/-- gui_app.py close_stale_sessions (lines 221-238): every row with session_end IS NULL is
closed with session_end = session_start, duration_minutes = 0, synced = 1. -/
def close_stale_sessions (s : SessionStore) : SessionStore :=
  { s with session_logs := s.session_logs.map (fun r =>
      if r.session_end.isNone then
        { r with session_end := some r.session_start, duration_minutes := some 0, synced := 1 }
      else r) }

/-- gui_app.py log_session_start (lines 240-250): first close_stale_sessions, then insert a
new open session row exactly as database.py start_session does. -/
def log_session_start (s : SessionStore) (computer_id username : String) (now : Int) :
    Nat × SessionStore :=
  Database.start_session (close_stale_sessions s) computer_id username now

/-- gui_app.py log_session_end (lines 252-264): fetch the row by id (no-op when absent), then
update with session_end = now and duration_minutes = int((now - session_start) / 60).
Truncation, and no max(1, ...) floor, unlike database.py end_session. -/
def log_session_end (s : SessionStore) (session_id : Nat) (now : Int) : SessionStore :=
  match s.session_logs.find? (fun r => r.id == session_id) with
  | none => s
  | some row =>
    let duration := pyTrunc (now - row.session_start) 60
    { s with session_logs := s.session_logs.map (fun r =>
        if r.id == session_id then
          { r with session_end := some now, duration_minutes := some duration }
        else r) }

end LocalDatabase

/-- Remote active-session document at users/userId/sessions/active/key
(fields written by gui_app.py lines 832-839 and sync_service.py lines 318-326;
status and pausedAt may also be set by the controlling app). -/
structure ActiveDoc where
  computerId : String
  computerName : String
  userId : String
  userName : String
  startTime : Int
  currentActivity : String
  status : Option String
  pausedAt : Option Int
deriving DecidableEq

/-- Remote archived-session document at users/userId/sessions/history/key
(gui_app.py lines 851-861, sync_service.py lines 345-355; the derived date string is
presentation-only and omitted). -/
structure HistoryDoc where
  computerId : String
  computerName : String
  userId : String
  userName : String
  startTime : Int
  endTime : Int
  totalDuration : Int
  status : String
deriving DecidableEq

/-- Lookup in a keyed remote collection (Firebase GET of path/key). -/
def assocFind {α : Type} (l : List (String × α)) (k : String) : Option α :=
  (l.find? (fun p => p.1 == k)).map (fun p => p.2)

/-- Full replace of a keyed remote document (Firebase PUT / set of path/key). -/
def assocSet {α : Type} (l : List (String × α)) (k : String) (v : α) : List (String × α) :=
  if (l.find? (fun p => p.1 == k)).isSome then
    l.map (fun p => if p.1 == k then (k, v) else p)
  else l ++ [(k, v)]

/-- Removal of a keyed remote document (Firebase DELETE of path/key). -/
def assocErase {α : Type} (l : List (String × α)) (k : String) : List (String × α) :=
  l.filter (fun p => p.1 != k)

/-- The remote tree under users/userId/sessions. -/
structure Remote where
  active : List (String × ActiveDoc)
  history : List (String × HistoryDoc)
deriving DecidableEq

/-- Remote document key for a local session: computerId underscore local id
(gui_app.py line 823, sync_service.py line 313). -/
def sessionKey (computer_id : String) (id : Nat) : String :=
  computer_id ++ "_" ++ toString id

/-- Remote command-queue entry at users/userId/commands/cmdId (gui_app.py check_commands).
A missing or null target computerId is modelled as the empty string, matching the
source's get with default and explicit None test. -/
structure Cmd where
  type : String
  computerId : String
  timestamp : Option Int
deriving DecidableEq

namespace FirebaseSync

/-- Patch payload of the active-session mirror of gui_app.py sync_all (lines 832-839). -/
structure SessionPatchData where
  computerId : String
  computerName : String
  userId : String
  userName : String
  startTime : Int
  currentActivity : String
deriving DecidableEq

/-- Firebase PATCH merge of a session payload into an existing active document: the listed
fields are overwritten, all others (status, pausedAt) are kept. -/
def applyPatch (d : ActiveDoc) (p : SessionPatchData) : ActiveDoc :=
  { d with computerId := p.computerId, computerName := p.computerName, userId := p.userId,
           userName := p.userName, startTime := p.startTime,
           currentActivity := p.currentActivity }

/-- Firebase PATCH creating a fresh active document from a session payload. -/
def docOfPatch (p : SessionPatchData) : ActiveDoc :=
  { computerId := p.computerId, computerName := p.computerName, userId := p.userId,
    userName := p.userName, startTime := p.startTime, currentActivity := p.currentActivity,
    status := none, pausedAt := none }

/-- Firebase PATCH on the active collection at key k: merge into an existing document,
create it otherwise. -/
def patchActive (l : List (String × ActiveDoc)) (k : String) (p : SessionPatchData) :
    List (String × ActiveDoc) :=
  match assocFind l k with
  | some d => assocSet l k (applyPatch d p)
  | none => l ++ [(k, docOfPatch p)]

/-- gui_app.py sync_all, active-session mirror step (lines 784-843). Both branches start
with a fallible GET of the remote active collection; get_ok records whether that request
returned HTTP 200 with a body (lines 794-795 and 812-814), an exception or non-200 being
swallowed. When the local active list is empty (resume mode), each remote active document
of this computer gets only its currentActivity patched, and nothing at all on a failed
GET. Otherwise existing_sessions is the set of this computer's remote documents — left
empty when the GET failed (lines 808-820) — and every local session is skipped when it is
non-empty; when it is empty (no remote document, or a failed duplicate check) the full
session payload including startTime is patched in (lines 822-843). -/
def sync_all_active_step (remoteActive : List (String × ActiveDoc))
    (localActive : List SessionRow) (computer_id computer_name : String)
    (current_activity : Option String) (get_ok : Bool) : List (String × ActiveDoc) :=
  if localActive.isEmpty then
    if get_ok then
      remoteActive.map (fun p =>
        if p.2.computerId == computer_id then
          (p.1, { p.2 with currentActivity := current_activity.getD "Idle" })
        else p)
    else
      remoteActive
  else if get_ok && !(remoteActive.filter (fun p => p.2.computerId == computer_id)).isEmpty then
    remoteActive
  else
    localActive.foldl (fun acc sess =>
      patchActive acc (sessionKey computer_id sess.id)
        { computerId := sess.computer_id, computerName := computer_name,
          userId := sess.username, userName := sess.username,
          startTime := sess.session_start,
          currentActivity := current_activity.getD "Idle" }) remoteActive

/-- One completed session of gui_app.py sync_all (lines 849-874): PUT the history document;
on success record the id for the local synced mark and try to DELETE the active document,
a delete failure being swallowed. put_ok and del_ok give each remote call's outcome,
keyed by the local session id. -/
def archStep (computer_id computer_name : String) (put_ok del_ok : Nat → Bool)
    (acc : Remote × List Nat) (sess : SessionRow) : Remote × List Nat :=
  if put_ok sess.id then
    let key := sessionKey computer_id sess.id
    let withHist : Remote :=
      { acc.1 with history :=
          (assocSet acc.1.history key
            { computerId := sess.computer_id, computerName := computer_name,
              userId := sess.username, userName := sess.username,
              startTime := sess.session_start,
              endTime := sess.session_end.getD sess.session_start,
              totalDuration := sess.duration_minutes.getD 0, status := "completed" }) }
    let withDel : Remote :=
      if del_ok sess.id then { withHist with active := assocErase withHist.active key }
      else withHist
    (withDel, acc.2 ++ [sess.id])
  else acc

/-- gui_app.py sync_all, completed-session archival step (lines 845-877): process the
unsynced completed sessions (default LIMIT 100), then mark the successfully archived ids
synced locally. -/
def sync_all_completed_step (s : SessionStore) (r : Remote)
    (computer_id computer_name : String) (put_ok del_ok : Nat → Bool) :
    SessionStore × Remote :=
  (Database.mark_sessions_synced s
     ((Database.get_unsynced_sessions s 100).foldl
       (archStep computer_id computer_name put_ok del_ok) (r, [])).2,
   ((Database.get_unsynced_sessions s 100).foldl
     (archStep computer_id computer_name put_ok del_ok) (r, [])).1)

/-- Stale-command test of gui_app.py check_commands (lines 648-656): skip when both a
min_timestamp and a command timestamp are present and the command is older. -/
def isStale (min_timestamp : Option Int) (c : Cmd) : Bool :=
  match min_timestamp, c.timestamp with
  | some m, some t => t < m
  | _, _ => false

/-- Target test of gui_app.py check_commands (line 661): the command is for this computer
or broadcast. -/
def isAddressed (computer_id : String) (c : Cmd) : Bool :=
  c.computerId == computer_id || c.computerId == ""

/-- Bounded recent-ids trimming of gui_app.py check_commands (lines 672-674): past 100
entries the set is cut back to the 50 most recent. -/
def trimIds (ids : List String) : List String :=
  if ids.length > 100 then ids.drop (ids.length - 50) else ids

/-- gui_app.py check_commands (lines 622-691): walk the command queue in order; skip stale
commands, commands addressed elsewhere and already-processed ids; at the first eligible
command mark its id processed, delete it from the remote queue and return its type for
the caller to execute. Returns the command type, the remaining queue and the new
processed-ids list. -/
def check_commands (computer_id : String) (min_timestamp : Option Int)
    (processed : List String) :
    List (String × Cmd) → Option String × List (String × Cmd) × List String
  | [] => (none, [], processed)
  | q :: rest =>
    if isStale min_timestamp q.2 then
      let res := check_commands computer_id min_timestamp processed rest
      (res.1, q :: res.2.1, res.2.2)
    else if isAddressed computer_id q.2 then
      if processed.contains q.1 then
        let res := check_commands computer_id min_timestamp processed rest
        (res.1, q :: res.2.1, res.2.2)
      else
        (some q.2.type, rest, trimIds (processed ++ [q.1]))
    else
      let res := check_commands computer_id min_timestamp processed rest
      (res.1, q :: res.2.1, res.2.2)

/-- Eligibility of a queued command in one check_commands pass: not stale, addressed to
this computer (or broadcast), and not yet processed. -/
def eligible (computer_id : String) (min_timestamp : Option Int) (processed : List String)
    (q : String × Cmd) : Bool :=
  !isStale min_timestamp q.2 && isAddressed computer_id q.2 && !processed.contains q.1

end FirebaseSync

namespace SyncService

/-- sync_service.py sync_sessions, active-session mirror (lines 310-330): for every locally
active session, set() the full active document, unconditionally replacing whatever the
remote already holds at that key. -/
def sync_sessions_active_step (remoteActive : List (String × ActiveDoc))
    (localActive : List SessionRow) (computer_id full_computer_name activity : String) :
    List (String × ActiveDoc) :=
  localActive.foldl (fun acc sess =>
    assocSet acc (sessionKey computer_id sess.id)
      { computerId := sess.computer_id, computerName := full_computer_name,
        userId := sess.username, userName := sess.username,
        startTime := sess.session_start, currentActivity := activity,
        status := some "active", pausedAt := none }) remoteActive

end SyncService

/-! Concrete states used to evaluate the model on explicit inputs. -/

/-- An open (active) session row, as left behind by an unclean shutdown. -/
def exOpenRow : SessionRow :=
  { id := 1, computer_id := "PC-1", username := "alice", session_start := 0,
    session_end := none, duration_minutes := none, synced := 0 }

/-- A store holding exactly the one open row. -/
def exStore1 : SessionStore :=
  { session_logs := [exOpenRow], next_id := 2 }

/-- A closed session row (ended at 300 with 5 recorded minutes, not yet synced). -/
def exClosedRow : SessionRow :=
  { id := 1, computer_id := "PC-1", username := "alice", session_start := 0,
    session_end := some 300, duration_minutes := some 5, synced := 0 }

/-- A store holding exactly the one closed row. -/
def exStoreClosed : SessionStore :=
  { session_logs := [exClosedRow], next_id := 2 }

/-- A completed, unsynced session row eligible for archival sync. -/
def exCompletedRow : SessionRow :=
  { id := 1, computer_id := "PC-1", username := "alice", session_start := 0,
    session_end := some 120, duration_minutes := some 2, synced := 0 }

/-- A store holding exactly the one completed unsynced row. -/
def exStoreCompleted : SessionStore :=
  { session_logs := [exCompletedRow], next_id := 2 }

/-- A closed, unsynced application row. -/
def exApp : AppRow :=
  { id := 1, computer_id := "PC-1", username := "alice", application_name := "chrome.exe",
    window_title := "Docs", start_time := 0, end_time := some 50, duration_seconds := some 50,
    synced := 0 }

/-- A registered computer row. -/
def exComp0 : ComputerRow :=
  { computer_id := "uuid-0", computer_name := "PC-1", registered_at := 0, synced := 0 }

/-- A computer table already holding one registration. -/
def exCompList : List ComputerRow := [exComp0]

/-- A remote active-session document whose startTime was adjusted by the controlling app
(800 instead of the local 1000) and which carries app-set pause state. -/
def exAdjustedDoc : ActiveDoc :=
  { computerId := "PC-1", computerName := "PC-1 - alice", userId := "alice",
    userName := "alice", startTime := 800, currentActivity := "Idle",
    status := some "paused", pausedAt := some 900 }

/-- A locally active session whose recorded start (1000) differs from the adjusted remote
startTime. -/
def exLocalOpen1000 : SessionRow :=
  { id := 1, computer_id := "PC-1", username := "alice", session_start := 1000,
    session_end := none, duration_minutes := none, synced := 0 }

/-- A remote state holding the adjusted active document for computer PC-1, session 1. -/
def exRemote : Remote :=
  { active := [("PC-1_1", exAdjustedDoc)], history := [] }

/-- A remote-call outcome oracle in which every call succeeds. -/
def allOk : Nat → Bool := fun _ => true

/-- The completed row after the archival sync marked it synced. -/
def exMarkedRow : SessionRow :=
  { exCompletedRow with synced := 1 }

/-- A stop command addressed to computer PC-1. -/
def exCmd : Cmd :=
  { type := "stop_monitoring", computerId := "PC-1", timestamp := some 5 }

/-- A queue holding one command addressed to a different computer. -/
def exQueueForeign : List (String × Cmd) :=
  [("cmdA", { type := "stop_monitoring", computerId := "OTHER", timestamp := none })]

/-! Helper lemmas. -/

/-- After close_stale_sessions every row carries an end time. -/
theorem close_stale_all_closed (s : SessionStore) :
    ∀ r ∈ (LocalDatabase.close_stale_sessions s).session_logs, r.session_end.isSome = true := by
  intro r hr
  simp only [LocalDatabase.close_stale_sessions, List.mem_map] at hr
  obtain ⟨a, _, rfl⟩ := hr
  by_cases h : a.session_end.isNone = true
  · simp [h]
  · simp only [if_neg h]
    cases he : a.session_end with
    | none => rw [he] at h; simp at h
    | some v => simp [he]

/-- After close_stale_sessions no row passes the open filter. -/
theorem close_stale_filter_nil (s : SessionStore) :
    (LocalDatabase.close_stale_sessions s).session_logs.filter
      (fun r => r.session_end.isNone) = [] := by
  rw [List.filter_eq_nil_iff]
  intro r hr hcon
  have h := close_stale_all_closed s r hr
  cases hre : r.session_end with
  | none => rw [hre] at h; simp at h
  | some v => rw [hre] at hcon; simp at hcon

/-- Round half to even of d / 60 together with the floor of 1 collapses to 1 when d is
under a minute. -/
theorem pyRound_small (d : Int) (h0 : 0 ≤ d) (h60 : d < 60) :
    max 1 (pyRound d 60) = 1 := by
  have hq : d / 60 = 0 := Int.ediv_eq_zero_of_lt h0 h60
  have hr : d % 60 = d := Int.emod_eq_of_lt h0 h60
  unfold pyRound
  rw [hq, hr]
  split_ifs <;> decide

/-! Claim C1. -/

/-- Claim C1, counterexample: database.py start_session performs no stale-session closing.
Starting a session on a store holding one stale open row leaves two rows with
session_end = null, and the stale row survives untouched (still open, still unsynced). -/
theorem start_session_leaves_stale_open :
    ((Database.start_session exStore1 "PC-1" "alice" 500).2.session_logs.filter
        (fun r => r.session_end.isNone)).length = 2 ∧
    exOpenRow ∈ (Database.start_session exStore1 "PC-1" "alice" 500).2.session_logs ∧
    exOpenRow.session_end = none ∧ exOpenRow.synced = 0 := by
  decide

/-- Claim C1, amended: the GUI session-start operation (gui_app.py log_session_start) first
closes every stale open row with session_end = session_start, duration_minutes = 0 and
synced = 1, then inserts exactly one new open session, which is afterwards the only row
with session_end = null. (database.py start_session inserts without this closing step.) -/
theorem log_session_start_closes_stale_unique_open (s : SessionStore) (cid u : String)
    (now : Int) :
    (((LocalDatabase.log_session_start s cid u now).2.session_logs.filter
        (fun r => r.session_end.isNone)).length = 1) ∧
    (∀ r ∈ s.session_logs, r.session_end = none →
      ∃ r', r' ∈ (LocalDatabase.log_session_start s cid u now).2.session_logs ∧
        r'.id = r.id ∧ r'.session_end = some r.session_start ∧
        r'.duration_minutes = some 0 ∧ r'.synced = 1) ∧
    (∃ r', r' ∈ (LocalDatabase.log_session_start s cid u now).2.session_logs ∧
      r'.id = (LocalDatabase.log_session_start s cid u now).1 ∧
      r'.session_end = none ∧ r'.session_start = now) := by
  refine ⟨?_, ?_, ?_⟩
  · show (((LocalDatabase.close_stale_sessions s).session_logs ++ _).filter _).length = 1
    rw [List.filter_append, close_stale_filter_nil]
    rfl
  · intro r hr hopen
    refine ⟨⟨r.id, r.computer_id, r.username, r.session_start, some r.session_start,
      some 0, 1⟩, ?_, rfl, rfl, rfl, rfl⟩
    show _ ∈ (LocalDatabase.close_stale_sessions s).session_logs ++ _
    refine List.mem_append_left _ ?_
    simp only [LocalDatabase.close_stale_sessions, List.mem_map]
    refine ⟨r, hr, ?_⟩
    rw [hopen]
    rfl
  · refine ⟨⟨(LocalDatabase.close_stale_sessions s).next_id, cid, u, now, none, none, 0⟩,
      ?_, rfl, rfl, rfl⟩
    show _ ∈ (LocalDatabase.close_stale_sessions s).session_logs ++ _
    exact List.mem_append_right _ (List.mem_singleton.mpr rfl)

/-- Claim C1, witness: evaluated on the store holding one stale open row. -/
theorem log_session_start_closes_stale_unique_open_witness :
    (((LocalDatabase.log_session_start exStore1 "PC-1" "alice" 500).2.session_logs.filter
        (fun r => r.session_end.isNone)).length = 1) ∧
    (∃ r', r' ∈ (LocalDatabase.log_session_start exStore1 "PC-1" "alice" 500).2.session_logs ∧
      r'.id = exOpenRow.id ∧ r'.session_end = some exOpenRow.session_start ∧
      r'.duration_minutes = some 0 ∧ r'.synced = 1) :=
  ⟨(log_session_start_closes_stale_unique_open exStore1 "PC-1" "alice" 500).1,
   (log_session_start_closes_stale_unique_open exStore1 "PC-1" "alice" 500).2.1 exOpenRow
     (by decide) rfl⟩

/-! Claim C3. -/

/-- Claim C3, counterexample: the GUI variant gui_app.py log_session_end truncates
with int((now - start) / 60), so ending a session 30 seconds after it started records
duration_minutes = 0, not 1. -/
theorem log_session_end_can_record_zero :
    (LocalDatabase.log_session_end exStore1 1 30).session_logs.map
      (fun r => r.duration_minutes) = [some 0] ∧
    (30 : Int) - exOpenRow.session_start < 60 := by
  decide

/-- Claim C3, amended: database.py end_session sets session_end = now and
duration_minutes = max(1, round((now - session_start) / 60)) on the row, and a session
whose elapsed time is under 60 seconds records duration 1, never 0; the GUI variant
log_session_end instead truncates without the floor and can record 0. -/
theorem end_session_sets_end_and_duration_floor (s : SessionStore) (sid : Nat) (now : Int)
    (row : SessionRow) (hfind : s.session_logs.find? (fun r => r.id == sid) = some row) :
    ((Database.end_session s sid now).session_logs = s.session_logs.map (fun r =>
        if r.id == sid then
          { r with session_end := some now,
                   duration_minutes := some (max 1 (pyRound (now - row.session_start) 60)) }
        else r)) ∧
    (0 ≤ now - row.session_start → now - row.session_start < 60 →
      max 1 (pyRound (now - row.session_start) 60) = 1) := by
  constructor
  · simp only [Database.end_session, hfind]
  · intro h0 h60
    exact pyRound_small _ h0 h60

/-- Claim C3, witness: ending the open session 45 seconds in records exactly one minute. -/
theorem end_session_sets_end_and_duration_floor_witness :
    ((Database.end_session exStore1 1 45).session_logs = exStore1.session_logs.map (fun r =>
        if r.id == 1 then
          { r with session_end := some 45,
                   duration_minutes := some (max 1 (pyRound (45 - exOpenRow.session_start) 60)) }
        else r)) ∧
    ((0 : Int) ≤ 45 - exOpenRow.session_start → (45 : Int) - exOpenRow.session_start < 60 →
      max 1 (pyRound (45 - exOpenRow.session_start) 60) = 1) :=
  end_session_sets_end_and_duration_floor exStore1 1 45 exOpenRow (by decide)

/-! Claim C5. -/

/-- Claim C5: get_unsynced_sessions returns only rows with synced = 0 and a non-null
session_end, and get_unsynced_applications only rows with synced = 0 and a non-null
end_time, for every store and limit. -/
theorem get_unsynced_only_completed_rows (s : SessionStore) (apps : List AppRow)
    (limit1 limit2 : Nat) :
    (∀ r ∈ Database.get_unsynced_sessions s limit1, r.synced = 0 ∧ r.session_end ≠ none) ∧
    (∀ a ∈ Database.get_unsynced_applications apps limit2, a.synced = 0 ∧ a.end_time ≠ none) := by
  constructor
  · intro r hr
    rw [Database.get_unsynced_sessions] at hr
    have hr' := List.take_subset _ _ hr
    have hp := (List.mem_filter.mp hr').2
    simp only [Bool.and_eq_true, beq_iff_eq, Option.isSome_iff_ne_none] at hp
    exact hp
  · intro a ha
    rw [Database.get_unsynced_applications] at ha
    have ha' := List.take_subset _ _ ha
    have hp := (List.mem_filter.mp ha').2
    simp only [Bool.and_eq_true, beq_iff_eq, Option.isSome_iff_ne_none] at hp
    exact hp

/-- Claim C5, witness: evaluated on a store holding one completed session and one closed
application row. -/
theorem get_unsynced_only_completed_rows_witness :
    (exCompletedRow.synced = 0 ∧ exCompletedRow.session_end ≠ none) ∧
    (exApp.synced = 0 ∧ exApp.end_time ≠ none) :=
  ⟨(get_unsynced_only_completed_rows exStoreCompleted [exApp] 10 10).1 exCompletedRow
     (by decide),
   (get_unsynced_only_completed_rows exStoreCompleted [exApp] 10 10).2 exApp (by decide)⟩

/-! Claim C6. -/

/-- Claim C6: register_computer is idempotent. Two consecutive calls return the same id and
the second leaves the table unchanged; when a computer row already exists, the call
returns its id and does not touch the table (so no fresh UUID enters the store). -/
theorem register_computer_idempotent (computers : List ComputerRow) (u1 n1 : String)
    (t1 : Int) (u2 n2 : String) (t2 : Int) :
    ((Database.register_computer (Database.register_computer computers u1 n1 t1).2 u2 n2 t2).1 =
        (Database.register_computer computers u1 n1 t1).1 ∧
      (Database.register_computer (Database.register_computer computers u1 n1 t1).2 u2 n2 t2).2 =
        (Database.register_computer computers u1 n1 t1).2) ∧
    (∀ row, computers.head? = some row →
      (Database.register_computer computers u1 n1 t1).1 = row.computer_id ∧
      (Database.register_computer computers u1 n1 t1).2 = computers) := by
  cases computers with
  | nil => simp [Database.register_computer, Database.get_computer_id]
  | cons c cs => simp [Database.register_computer, Database.get_computer_id]

/-- Claim C6, witness: registering on a table already holding a row returns the stored id
and leaves the table unchanged. -/
theorem register_computer_idempotent_witness :
    (Database.register_computer exCompList "uuid-9" "PC-9" 9).1 = exComp0.computer_id ∧
    (Database.register_computer exCompList "uuid-9" "PC-9" 9).2 = exCompList :=
  (register_computer_idempotent exCompList "uuid-9" "PC-9" 9 "uuid-8" "PC-8" 8).2 exComp0
    (by decide)

/-! Claim C7. -/

/-- Claim C7, counterexample: database.py end_session does not inspect the row's state, so
calling it on an already-closed row is not a no-op: the stored session_end 300 is
overwritten with the new current time 1000. -/
theorem end_session_overwrites_closed_row :
    Database.end_session exStoreClosed 1 1000 ≠ exStoreClosed ∧
    (Database.end_session exStoreClosed 1 1000).session_logs.map (fun r => r.session_end) =
      [some 1000] ∧
    exClosedRow.session_end = some 300 := by
  decide

/-- Claim C7, amended: calling end_session with a session id that does not exist is a
no-op; calling it with the id of an already-closed row is not: the row is re-ended, its
session_end overwritten with the current time and its duration_minutes recomputed from
session_start. -/
theorem end_session_missing_noop_closed_overwrite (s : SessionStore) (sid : Nat)
    (now : Int) :
    ((s.session_logs.find? (fun r => r.id == sid) = none) →
      Database.end_session s sid now = s) ∧
    (∀ row, s.session_logs.find? (fun r => r.id == sid) = some row →
      row.session_end ≠ none →
      (Database.end_session s sid now).session_logs = s.session_logs.map (fun r =>
        if r.id == sid then
          { r with session_end := some now,
                   duration_minutes := some (max 1 (pyRound (now - row.session_start) 60)) }
        else r)) := by
  constructor
  · intro h
    simp only [Database.end_session, h]
  · intro row h _
    simp only [Database.end_session, h]

/-- Claim C7, witness: a missing id (99) leaves the store unchanged, and re-ending the
closed row 1 at time 1000 rewrites it. -/
theorem end_session_missing_noop_closed_overwrite_witness :
    (Database.end_session exStoreClosed 99 7 = exStoreClosed) ∧
    ((Database.end_session exStoreClosed 1 1000).session_logs =
      exStoreClosed.session_logs.map (fun r =>
        if r.id == 1 then
          { r with session_end := some 1000,
                   duration_minutes :=
                     some (max 1 (pyRound (1000 - exClosedRow.session_start) 60)) }
        else r)) :=
  ⟨(end_session_missing_noop_closed_overwrite exStoreClosed 99 7).1 (by decide),
   (end_session_missing_noop_closed_overwrite exStoreClosed 1 1000).2 exClosedRow
     (by decide) (by decide)⟩

/-! Claim C9. -/

/-- Claim C9, counterexample: database.py log_error has no exception handler, so when the
underlying sqlite write fails the error propagates to the caller instead of being
swallowed. -/
theorem log_error_raises_on_write_failure :
    Database.log_error [] false "SyncError" "boom" none =
      Except.error "sqlite3 write failure propagates" :=
  rfl

/-- Claim C9, amended: log_error appends the error row and returns normally whenever the
underlying write succeeds; when the write fails, the sqlite exception propagates to the
caller (log_error installs no handler). -/
theorem log_error_succeeds_when_write_succeeds (error_logs : List ErrorRow) (et em : String)
    (st : Option String) (write_ok : Bool) (h : write_ok = true) :
    Database.log_error error_logs write_ok et em st =
      Except.ok (error_logs ++
        [{ error_type := et, error_message := em, stack_trace := st }]) := by
  subst h
  rfl

/-- Claim C9, witness: a successful write appends the row. -/
theorem log_error_succeeds_when_write_succeeds_witness :
    Database.log_error [] true "SyncError" "boom" none =
      Except.ok ([] ++
        [{ error_type := "SyncError", error_message := "boom", stack_trace := none }]) :=
  log_error_succeeds_when_write_succeeds [] "SyncError" "boom" none true rfl

/-! Claim C2. -/

/-- Claim C2, counterexample: two mirror paths overwrite the app-adjusted startTime of an
existing remote document (here 800, locally 1000). sync_service.py sync_sessions set()s
the full document, so startTime becomes 1000 and the pausedAt field is wiped; and the
gui_app.py sync_all mirror, when its duplicate-check GET fails (exception or non-200,
get_ok = false, lines 808-820), sees an empty existing_sessions and PATCHes the full
payload over the existing document, also forcing startTime to 1000 (the merge keeps
pausedAt). -/
theorem sync_sessions_active_overwrites_startTime :
    (assocFind (SyncService.sync_sessions_active_step [("PC-1_1", exAdjustedDoc)]
        [exLocalOpen1000] "PC-1" "PC-1 - alice" "Coding") "PC-1_1").map
      (fun d => d.startTime) = some 1000 ∧
    (assocFind (SyncService.sync_sessions_active_step [("PC-1_1", exAdjustedDoc)]
        [exLocalOpen1000] "PC-1" "PC-1 - alice" "Coding") "PC-1_1").map
      (fun d => d.pausedAt) = some none ∧
    (assocFind (FirebaseSync.sync_all_active_step [("PC-1_1", exAdjustedDoc)]
        [exLocalOpen1000] "PC-1" "PC-1 - alice" (some "Coding") false) "PC-1_1").map
      (fun d => d.startTime) = some 1000 ∧
    (assocFind (FirebaseSync.sync_all_active_step [("PC-1_1", exAdjustedDoc)]
        [exLocalOpen1000] "PC-1" "PC-1 - alice" (some "Coding") false) "PC-1_1").map
      (fun d => d.pausedAt) = some (some 900) ∧
    exAdjustedDoc.startTime = 800 ∧ exAdjustedDoc.pausedAt = some 900 := by
  decide

/-- Claim C2, amended: only on ticks whose duplicate-check GET succeeds does the
gui_app.py sync_all active-session mirror behave as claimed: when the remote already
holds an active-session document whose computerId is this computer, the tick either
patches only its currentActivity or skips the local session entirely, so startTime,
status, pausedAt and the identity fields survive unchanged and the document is never
replaced wholesale. When that GET fails the gui falls through and patches the full
payload including startTime over the existing document, and the sync_service.py
sync_sessions variant set()s the full document unconditionally on every tick. -/
theorem sync_all_active_preserves_existing_doc (remoteActive : List (String × ActiveDoc))
    (localActive : List SessionRow) (cid cname : String) (act : Option String)
    (get_ok : Bool) (k : String) (d : ActiveDoc) (hget : get_ok = true)
    (hmem : (k, d) ∈ remoteActive) (hcid : d.computerId = cid) :
    ∃ d', (k, d') ∈ FirebaseSync.sync_all_active_step remoteActive localActive cid cname
        act get_ok ∧
      d'.startTime = d.startTime ∧ d'.computerId = d.computerId ∧
      d'.computerName = d.computerName ∧ d'.userId = d.userId ∧ d'.userName = d.userName ∧
      d'.status = d.status ∧ d'.pausedAt = d.pausedAt := by
  subst hget
  unfold FirebaseSync.sync_all_active_step
  by_cases hl : localActive.isEmpty = true
  · rw [if_pos hl, if_pos rfl]
    refine ⟨{ d with currentActivity := act.getD "Idle" }, ?_, rfl, rfl, rfl, rfl, rfl,
      rfl, rfl⟩
    refine List.mem_map.mpr ⟨(k, d), hmem, ?_⟩
    have hb : (d.computerId == cid) = true := by rw [hcid]; simp
    simp only [hb, if_true]
  · rw [if_neg hl]
    have hfil : (k, d) ∈ remoteActive.filter (fun p => p.2.computerId == cid) := by
      refine List.mem_filter.mpr ⟨hmem, ?_⟩
      simp [hcid]
    have hemp : (remoteActive.filter (fun p => p.2.computerId == cid)).isEmpty = false := by
      cases hcase : (remoteActive.filter (fun p => p.2.computerId == cid)).isEmpty
      · rfl
      · rw [List.isEmpty_iff] at hcase
        rw [hcase] at hfil
        exact absurd hfil (List.not_mem_nil _)
    have hcond : (true && !(remoteActive.filter
        (fun p => p.2.computerId == cid)).isEmpty) = true := by
      rw [hemp]
      rfl
    rw [if_pos hcond]
    exact ⟨d, hmem, rfl, rfl, rfl, rfl, rfl, rfl, rfl⟩

/-- Claim C2, witness: with a successful duplicate-check GET, the adjusted remote document
survives a gui_app.py mirror tick with one locally active session present. -/
theorem sync_all_active_preserves_existing_doc_witness :
    ∃ d', ("PC-1_1", d') ∈ FirebaseSync.sync_all_active_step [("PC-1_1", exAdjustedDoc)]
        [exLocalOpen1000] "PC-1" "PC-1 - alice" (some "Coding") true ∧
      d'.startTime = exAdjustedDoc.startTime ∧ d'.computerId = exAdjustedDoc.computerId ∧
      d'.computerName = exAdjustedDoc.computerName ∧ d'.userId = exAdjustedDoc.userId ∧
      d'.userName = exAdjustedDoc.userName ∧ d'.status = exAdjustedDoc.status ∧
      d'.pausedAt = exAdjustedDoc.pausedAt :=
  sync_all_active_preserves_existing_doc [("PC-1_1", exAdjustedDoc)] [exLocalOpen1000]
    "PC-1" "PC-1 - alice" (some "Coding") true "PC-1_1" exAdjustedDoc rfl (by decide) rfl

/-! Claim C4. -/

/-- A keyed collection holds no entry at k exactly when every key differs from k. -/
theorem assocFind_eq_none_iff {α : Type} (l : List (String × α)) (k : String) :
    assocFind l k = none ↔ ∀ p ∈ l, (p.1 == k) = false := by
  unfold assocFind
  rw [Option.map_eq_none', List.find?_eq_none]
  simp

/-- Deleting key k removes the entry at k. -/
theorem assocFind_erase_self {α : Type} (l : List (String × α)) (k : String) :
    assocFind (assocErase l k) k = none := by
  rw [assocFind_eq_none_iff]
  intro p hp
  have h := (List.mem_filter.mp hp).2
  simpa using h

/-- Deleting any key preserves the absence of an entry at k. -/
theorem assocFind_erase_none {α : Type} (l : List (String × α)) (k k' : String)
    (h : assocFind l k = none) :
    assocFind (assocErase l k') k = none := by
  rw [assocFind_eq_none_iff] at h ⊢
  intro p hp
  exact h p (List.mem_filter.mp hp).1

/-- The id accumulator of one archival step: extended exactly when the history PUT
succeeded. -/
theorem archStep_ids (cid cname : String) (put_ok del_ok : Nat → Bool)
    (acc : Remote × List Nat) (sess : SessionRow) :
    (FirebaseSync.archStep cid cname put_ok del_ok acc sess).2 =
      if put_ok sess.id then acc.2 ++ [sess.id] else acc.2 := by
  unfold FirebaseSync.archStep
  by_cases hp : put_ok sess.id = true
  · simp [hp]
  · simp [hp]

/-- The remote active collection after one archival step: the session key is erased
exactly when both remote calls succeeded, and nothing is ever added. -/
theorem archStep_active (cid cname : String) (put_ok del_ok : Nat → Bool)
    (acc : Remote × List Nat) (sess : SessionRow) :
    (FirebaseSync.archStep cid cname put_ok del_ok acc sess).1.active =
      if put_ok sess.id && del_ok sess.id then
        assocErase acc.1.active (sessionKey cid sess.id)
      else acc.1.active := by
  unfold FirebaseSync.archStep
  by_cases hp : put_ok sess.id = true
  · by_cases hd : del_ok sess.id = true
    · simp [hp, hd]
    · simp [hp, hd]
  · simp [hp]

/-- The archival fold only grows the id accumulator. -/
theorem arch_fold_ids_mono (cid cname : String) (put_ok del_ok : Nat → Bool) (i : Nat) :
    ∀ (l : List SessionRow) (acc : Remote × List Nat), i ∈ acc.2 →
      i ∈ (l.foldl (FirebaseSync.archStep cid cname put_ok del_ok) acc).2 := by
  intro l
  induction l with
  | nil => intro acc h; exact h
  | cons x xs ih =>
    intro acc h
    rw [List.foldl_cons]
    refine ih _ ?_
    rw [archStep_ids]
    by_cases hp : put_ok x.id = true
    · rw [if_pos hp]; exact List.mem_append_left _ h
    · rw [if_neg hp]; exact h

/-- A session whose history PUT succeeds ends up in the id accumulator of the archival
fold. -/
theorem arch_fold_mem_ids (cid cname : String) (put_ok del_ok : Nat → Bool)
    (sess : SessionRow) (hput : put_ok sess.id = true) :
    ∀ (l : List SessionRow) (acc : Remote × List Nat), sess ∈ l →
      sess.id ∈ (l.foldl (FirebaseSync.archStep cid cname put_ok del_ok) acc).2 := by
  intro l
  induction l with
  | nil => intro acc hmem; cases hmem
  | cons x xs ih =>
    intro acc hmem
    rcases List.mem_cons.mp hmem with h | h
    · subst h
      rw [List.foldl_cons]
      apply arch_fold_ids_mono
      rw [archStep_ids, if_pos hput]
      exact List.mem_append_right _ (List.mem_singleton.mpr rfl)
    · rw [List.foldl_cons]
      exact ih _ h

/-- The archival fold never inserts into the remote active collection. -/
theorem arch_fold_active_none (cid cname : String) (put_ok del_ok : Nat → Bool)
    (k : String) :
    ∀ (l : List SessionRow) (acc : Remote × List Nat), assocFind acc.1.active k = none →
      assocFind (l.foldl (FirebaseSync.archStep cid cname put_ok del_ok) acc).1.active k =
        none := by
  intro l
  induction l with
  | nil => intro acc h; exact h
  | cons x xs ih =>
    intro acc h
    rw [List.foldl_cons]
    refine ih _ ?_
    rw [archStep_active]
    by_cases hc : (put_ok x.id && del_ok x.id) = true
    · rw [if_pos hc]; exact assocFind_erase_none _ _ _ h
    · rw [if_neg hc]; exact h

/-- A session archived with a successful delete disappears from the remote active
collection for good. -/
theorem arch_fold_erases (cid cname : String) (put_ok del_ok : Nat → Bool)
    (sess : SessionRow) (hput : put_ok sess.id = true) (hdel : del_ok sess.id = true) :
    ∀ (l : List SessionRow) (acc : Remote × List Nat), sess ∈ l →
      assocFind (l.foldl (FirebaseSync.archStep cid cname put_ok del_ok) acc).1.active
        (sessionKey cid sess.id) = none := by
  intro l
  induction l with
  | nil => intro acc hmem; cases hmem
  | cons x xs ih =>
    intro acc hmem
    rcases List.mem_cons.mp hmem with h | h
    · subst h
      rw [List.foldl_cons]
      apply arch_fold_active_none
      rw [archStep_active, if_pos (by simp [hput, hdel])]
      exact assocFind_erase_self _ _
    · rw [List.foldl_cons]
      exact ih _ h

/-- Claim C4: after a completed-session sync tick, every processed session whose history
write succeeded is marked synced locally, even when the subsequent active-document
delete failed; and when the delete also succeeded, the remote active path no longer
holds a document for that session. -/
theorem sync_all_completed_marks_synced_and_clears_active (s : SessionStore) (r : Remote)
    (cid cname : String) (put_ok del_ok : Nat → Bool) (sess : SessionRow)
    (hmem : sess ∈ Database.get_unsynced_sessions s 100)
    (hput : put_ok sess.id = true) :
    (∀ row ∈ (FirebaseSync.sync_all_completed_step s r cid cname put_ok del_ok).1.session_logs,
        row.id = sess.id → row.synced = 1) ∧
    (del_ok sess.id = true →
      assocFind (FirebaseSync.sync_all_completed_step s r cid cname put_ok del_ok).2.active
        (sessionKey cid sess.id) = none) := by
  constructor
  · intro row hrow hid
    have hidmem := arch_fold_mem_ids cid cname put_ok del_ok sess hput
      (Database.get_unsynced_sessions s 100) (r, []) hmem
    simp only [FirebaseSync.sync_all_completed_step, Database.mark_sessions_synced,
      List.mem_map] at hrow
    obtain ⟨orig, horig, heq⟩ := hrow
    rw [← heq] at hid ⊢
    by_cases hc : (((Database.get_unsynced_sessions s 100).foldl
        (FirebaseSync.archStep cid cname put_ok del_ok) (r, [])).2.contains orig.id) = true
    · rw [if_pos hc]
    · rw [if_neg hc] at hid ⊢
      exact absurd (List.elem_iff.mpr (hid ▸ hidmem)) hc
  · intro hdel
    exact arch_fold_erases cid cname put_ok del_ok sess hput hdel
      (Database.get_unsynced_sessions s 100) (r, []) hmem

/-- Claim C4, witness: the completed session 1 is archived with both remote calls
succeeding; the marked row is synced and the active document at PC-1_1 is gone. -/
theorem sync_all_completed_marks_synced_and_clears_active_witness :
    exMarkedRow.synced = 1 ∧
    assocFind (FirebaseSync.sync_all_completed_step exStoreCompleted exRemote "PC-1"
        "PC-1 - alice" allOk allOk).2.active (sessionKey "PC-1" exCompletedRow.id) = none :=
  ⟨(sync_all_completed_marks_synced_and_clears_active exStoreCompleted exRemote "PC-1"
      "PC-1 - alice" allOk allOk exCompletedRow (by decide) rfl).1 exMarkedRow (by decide)
      rfl,
   (sync_all_completed_marks_synced_and_clears_active exStoreCompleted exRemote "PC-1"
      "PC-1 - alice" allOk allOk exCompletedRow (by decide) rfl).2 rfl⟩

/-! Claim C8. -/

/-- Claim C8: running the poller on a queue holding a fresh eligible command executes it
(returns its type once), deletes it from the queue and records its id; replaying the very
same command afterwards is skipped — no type is returned, the queue is untouched and the
processed-ids set is unchanged — so the action fires only once. The size bound keeps the
recent-ids trim from firing. -/
theorem check_commands_executes_once_and_deletes (cid : String) (minTs : Option Int)
    (p0 : List String) (cmdId : String) (cmd : Cmd)
    (hstale : FirebaseSync.isStale minTs cmd = false)
    (haddr : FirebaseSync.isAddressed cid cmd = true)
    (hnew : p0.contains cmdId = false)
    (hsize : p0.length < 100) :
    FirebaseSync.check_commands cid minTs p0 [(cmdId, cmd)] =
      (some cmd.type, [], p0 ++ [cmdId]) ∧
    FirebaseSync.check_commands cid minTs (p0 ++ [cmdId]) [(cmdId, cmd)] =
      (none, [(cmdId, cmd)], p0 ++ [cmdId]) := by
  constructor
  · have hmem : cmdId ∉ p0 := by
      intro hm
      have hc : p0.contains cmdId = true := List.elem_iff.mpr hm
      rw [hnew] at hc
      cases hc
    have hlt : ¬ 100 < p0.length + 1 := by omega
    simp [FirebaseSync.check_commands, FirebaseSync.trimIds, hstale, haddr, hmem, hlt]
  · have hmem : cmdId ∈ p0 ++ [cmdId] :=
      List.mem_append_right _ (List.mem_singleton.mpr rfl)
    simp [FirebaseSync.check_commands, hstale, haddr, hmem]

/-- Claim C8, witness: a stop command for PC-1 fires exactly once and is removed. -/
theorem check_commands_executes_once_and_deletes_witness :
    FirebaseSync.check_commands "PC-1" none [] [("cmdB", exCmd)] =
      (some exCmd.type, [], [] ++ ["cmdB"]) ∧
    FirebaseSync.check_commands "PC-1" none ([] ++ ["cmdB"]) [("cmdB", exCmd)] =
      (none, [("cmdB", exCmd)], [] ++ ["cmdB"]) :=
  check_commands_executes_once_and_deletes "PC-1" none [] "cmdB" exCmd rfl rfl rfl
    (by decide)

/-! Claim C10. -/

/-- Claim C10: one check_commands pass executes and deletes at most one command. When it
returns none, both the queue and the processed-ids set are unchanged; when it returns a
type, the queue splits around a single eligible command that is removed while every
earlier entry was ineligible and every later entry is left untouched in place. -/
theorem check_commands_at_most_one_command (cid : String) (minTs : Option Int)
    (p : List String) :
    ∀ q : List (String × Cmd),
      ((FirebaseSync.check_commands cid minTs p q).1 = none →
        (FirebaseSync.check_commands cid minTs p q).2.1 = q ∧
        (FirebaseSync.check_commands cid minTs p q).2.2 = p) ∧
      (∀ t, (FirebaseSync.check_commands cid minTs p q).1 = some t →
        ∃ pre e post, q = pre ++ e :: post ∧
          (FirebaseSync.check_commands cid minTs p q).2.1 = pre ++ post ∧
          FirebaseSync.eligible cid minTs p e = true ∧ t = e.2.type ∧
          ∀ e' ∈ pre, FirebaseSync.eligible cid minTs p e' = false) := by
  intro q
  induction q with
  | nil =>
    constructor
    · intro _
      exact ⟨rfl, rfl⟩
    · intro t ht
      simp [FirebaseSync.check_commands] at ht
  | cons x xs ih =>
    by_cases h1 : FirebaseSync.isStale minTs x.2 = true
    · have hstep : FirebaseSync.check_commands cid minTs p (x :: xs) =
          ((FirebaseSync.check_commands cid minTs p xs).1,
           x :: (FirebaseSync.check_commands cid minTs p xs).2.1,
           (FirebaseSync.check_commands cid minTs p xs).2.2) := by
        simp [FirebaseSync.check_commands, h1]
      constructor
      · intro hn
        rw [hstep] at hn ⊢
        obtain ⟨hq, hp⟩ := ih.1 hn
        exact ⟨by simp [hq], hp⟩
      · intro t ht
        rw [hstep] at ht ⊢
        obtain ⟨pre, e, post, hsplit, hq, hel, htype, hpre⟩ := ih.2 t ht
        refine ⟨x :: pre, e, post, by simp [hsplit], by simp [hq], hel, htype, ?_⟩
        intro e' he'
        rcases List.mem_cons.mp he' with h | h
        · subst h
          simp [FirebaseSync.eligible, h1]
        · exact hpre e' h
    · by_cases h2 : FirebaseSync.isAddressed cid x.2 = true
      · by_cases h3 : p.contains x.1 = true
        · have h3' : x.1 ∈ p := List.elem_iff.mp h3
          have hstep : FirebaseSync.check_commands cid minTs p (x :: xs) =
              ((FirebaseSync.check_commands cid minTs p xs).1,
               x :: (FirebaseSync.check_commands cid minTs p xs).2.1,
               (FirebaseSync.check_commands cid minTs p xs).2.2) := by
            simp [FirebaseSync.check_commands, h1, h2, h3']
          constructor
          · intro hn
            rw [hstep] at hn ⊢
            obtain ⟨hq, hp⟩ := ih.1 hn
            exact ⟨by simp [hq], hp⟩
          · intro t ht
            rw [hstep] at ht ⊢
            obtain ⟨pre, e, post, hsplit, hq, hel, htype, hpre⟩ := ih.2 t ht
            refine ⟨x :: pre, e, post, by simp [hsplit], by simp [hq], hel, htype, ?_⟩
            intro e' he'
            rcases List.mem_cons.mp he' with h | h
            · subst h
              simp [FirebaseSync.eligible, h3']
            · exact hpre e' h
        · have h3' : x.1 ∉ p := fun hm => h3 (List.elem_iff.mpr hm)
          have hstep : FirebaseSync.check_commands cid minTs p (x :: xs) =
              (some x.2.type, xs, FirebaseSync.trimIds (p ++ [x.1])) := by
            simp [FirebaseSync.check_commands, h1, h2, h3']
          constructor
          · intro hn
            rw [hstep] at hn
            simp at hn
          · intro t ht
            rw [hstep] at ht
            have ht2 : some x.2.type = some t := ht
            refine ⟨[], x, xs, rfl, by simp [hstep], ?_, (Option.some.inj ht2).symm, ?_⟩
            · simp [FirebaseSync.eligible, h1, h2, h3']
            · intro e' he'
              cases he'
      · have hstep : FirebaseSync.check_commands cid minTs p (x :: xs) =
            ((FirebaseSync.check_commands cid minTs p xs).1,
             x :: (FirebaseSync.check_commands cid minTs p xs).2.1,
             (FirebaseSync.check_commands cid minTs p xs).2.2) := by
          simp [FirebaseSync.check_commands, h1, h2]
        constructor
        · intro hn
          rw [hstep] at hn ⊢
          obtain ⟨hq, hp⟩ := ih.1 hn
          exact ⟨by simp [hq], hp⟩
        · intro t ht
          rw [hstep] at ht ⊢
          obtain ⟨pre, e, post, hsplit, hq, hel, htype, hpre⟩ := ih.2 t ht
          refine ⟨x :: pre, e, post, by simp [hsplit], by simp [hq], hel, htype, ?_⟩
          intro e' he'
          rcases List.mem_cons.mp he' with h | h
          · subst h
            simp [FirebaseSync.eligible, h2]
          · exact hpre e' h

/-- Claim C10, witness: a queue holding only a command addressed to another computer is
returned untouched together with an unchanged processed-ids set. -/
theorem check_commands_at_most_one_command_witness :
    (FirebaseSync.check_commands "PC-1" none [] exQueueForeign).2.1 = exQueueForeign ∧
    (FirebaseSync.check_commands "PC-1" none [] exQueueForeign).2.2 = ([] : List String) :=
  (check_commands_at_most_one_command "PC-1" none [] exQueueForeign).1 (by decide)
